import Mathlib

/-!
Verification development for the accounting-app repository.

The repository consists of two Python scripts:
  * download_android_project.py — a minimal HTTP server that serves the
    archive "accounting-android-project.zip" for download;
  * upload_apk_to_github.py — an interactive orchestrator that builds an
    APK artifact via an external command and uploads it via another
    external command.

Both scripts are shallowly embedded below.  Effects are made explicit:
the filesystem is a map from path to optional byte contents, the
operator's interactive answers and the outcomes of external commands are
parameters, and environment-variable state is threaded through the
functions that mutate it.
-/

/-! ## Python string primitives used by the scripts -/

/-- Whitespace as recognised by Python str.strip on the ASCII range
(the scripts only ever strip ASCII input). -/
def pySpace (c : Char) : Bool :=
  c == ' ' || c == '\t' || c == '\n' || c == '\r' || c == '\x0b' || c == '\x0c'

/-- Remove leading and trailing whitespace from a character list. -/
def stripChars (l : List Char) : List Char :=
  ((l.dropWhile pySpace).reverse.dropWhile pySpace).reverse

/-- Python str.strip(). -/
def pyStrip (s : String) : String :=
  ⟨stripChars s.data⟩

/-- ASCII lowering of one character; Python str.lower restricted to the
ASCII range (the scripts only compare against the ASCII answer "y"). -/
def pyLowerChar (c : Char) : Char :=
  if 'A' ≤ c ∧ c ≤ 'Z' then Char.ofNat (c.toNat + 32) else c

/-- Python str.lower() on the ASCII range. -/
def pyLower (s : String) : String :=
  ⟨s.data.map pyLowerChar⟩

/-- Does list `l` start with `pat`? -/
def startsWithL {α : Type} [BEq α] : List α → List α → Bool
  | [], _ => true
  | _ :: _, [] => false
  | a :: as, b :: bs => a == b && startsWithL as bs

/-- Does `pat` occur as a contiguous sublist of `l`?  Mirrors the Python
substring operator `in`. -/
def hasSubL {α : Type} [BEq α] (pat : List α) : List α → Bool
  | [] => pat.isEmpty
  | b :: bs => startsWithL pat (b :: bs) || hasSubL pat bs

/-- Python substring test `pat in s`. -/
def pyIn (pat s : String) : Bool :=
  hasSubL pat.data s.data

/-- Python truthiness of an optional string (None and "" are falsy):
the scripts apply it to os.environ.get results and to the optional
stdout of a subprocess. -/
def pyTruthyOptStr : Option String → Bool
  | none => false
  | some s => !(s == "")

/-! ## Bytes and UTF-8 -/

/-- UTF-8 encoding of one Unicode scalar value, as a list of byte
values. -/
def utf8Char (c : Char) : List Nat :=
  let n := c.toNat
  if n < 128 then [n]
  else if n < 2048 then [192 + n / 64, 128 + n % 64]
  else if n < 65536 then [224 + n / 4096, 128 + (n / 64) % 64, 128 + n % 64]
  else [240 + n / 262144, 128 + (n / 4096) % 64, 128 + (n / 64) % 64, 128 + n % 64]

/-- UTF-8 encoding of a character list. -/
def strBytesL : List Char → List Nat
  | [] => []
  | c :: cs => utf8Char c ++ strBytesL cs

/-- UTF-8 encoding of a string, mirroring Python str.encode(). -/
def strBytes (s : String) : List Nat :=
  strBytesL s.data

/-- Bytes of an ASCII string, mirroring a Python b"..." literal. -/
def asciiBytes (s : String) : List Nat :=
  s.data.map (fun c => c.toNat)

/-- One uppercase hexadecimal digit. -/
def hexDigit (n : Nat) : Char :=
  if n < 10 then Char.ofNat (48 + n) else Char.ofNat (55 + n)

/-- Is `c` in the safe set of urllib.parse.quote with the default
safe="/" (unreserved characters plus the slash)? -/
def quoteSafeChar (c : Char) : Bool :=
  ('A' ≤ c && c ≤ 'Z') || ('a' ≤ c && c ≤ 'z') || ('0' ≤ c && c ≤ '9') ||
    c == '_' || c == '.' || c == '-' || c == '~' || c == '/'

/-- Percent-encoding of one character: kept if safe, otherwise each
UTF-8 byte becomes %XX. -/
def quoteChar (c : Char) : String :=
  if quoteSafeChar c then String.singleton c
  else String.join ((utf8Char c).map (fun b =>
    ⟨['%', hexDigit (b / 16), hexDigit (b % 16)]⟩))

/-- urllib.parse.quote with the default safe set. -/
def pyQuote (s : String) : String :=
  String.join (s.data.map quoteChar)

/-! ## download_android_project.py -/

/-- The served archive (module constant ZIP_FILE). -/
def ZIP_FILE : String := "accounting-android-project.zip"

/-- A filesystem snapshot: each path maps to the byte contents of the
file there, or none when no file exists at that path.  os.path.exists
is isSome, os.path.getsize is the length of the contents. -/
abbrev FS : Type := String → Option (List Nat)

/-- An HTTP response as assembled by the handler: status code sent by
send_response, headers sent by send_header, body bytes written to
wfile after end_headers. -/
structure HttpResponse where
  status : Nat
  headers : List (String × String)
  body : List Nat
deriving DecidableEq

/-- Outcome of one do_GET call: either a complete response, or an
uncaught exception raised after the status line and headers were
already sent but before any body byte was written. -/
inductive GetOutcome where
  | ok (resp : HttpResponse)
  | raised (sent : HttpResponse)
deriving DecidableEq

/-- Python float formatting f"{size/1024:.1f}" expressed in tenths:
size/1024 is exact in binary floating point (the sizes in play are far
below 2^53), and the format rounds to the nearest tenth with ties to
even. -/
def round1f (sizeBytes : Nat) : Nat :=
  let t := sizeBytes * 10
  let q := t / 1024
  let r := t % 1024
  if 512 < r then q + 1
  else if r < 512 then q
  else if q % 2 = 0 then q else q + 1

/-- The text f"{size/1024:.1f}" interpolated into the landing page. -/
def sizeKBStr (sizeBytes : Nat) : String :=
  toString (round1f sizeBytes / 10) ++ "." ++ toString (round1f sizeBytes % 10)

/-- The landing-page f-string up to the interpolated size (literal
braces of the Python source are written \x7b and \x7d). -/
def htmlPre : String :=
  "\n"
  ++ "            <!DOCTYPE html>\n"
  ++ "            <html>\n"
  ++ "            <head>\n"
  ++ "                <meta charset=\"UTF-8\">\n"
  ++ "                <meta name=\"viewport\" content=\"width=device-width, initial-scale=1.0\">\n"
  ++ "                <title>دانلود پروژه اندروید</title>\n"
  ++ "                <style>\n"
  ++ "                    body \x7b\n"
  ++ "                        font-family: Arial, sans-serif;\n"
  ++ "                        background-color: #121212;\n"
  ++ "                        color: #ffffff;\n"
  ++ "                        display: flex;\n"
  ++ "                        justify-content: center;\n"
  ++ "                        align-items: center;\n"
  ++ "                        height: 100vh;\n"
  ++ "                        margin: 0;\n"
  ++ "                        direction: rtl;\n"
  ++ "                    \x7d\n"
  ++ "                    .container \x7b\n"
  ++ "                        text-align: center;\n"
  ++ "                        background-color: #1e1e1e;\n"
  ++ "                        padding: 2rem;\n"
  ++ "                        border-radius: 8px;\n"
  ++ "                        box-shadow: 0 4px 6px rgba(0, 0, 0, 0.1);\n"
  ++ "                        max-width: 500px;\n"
  ++ "                        width: 100%;\n"
  ++ "                    \x7d\n"
  ++ "                    h1 \x7b\n"
  ++ "                        color: #0eead9;\n"
  ++ "                        margin-bottom: 1rem;\n"
  ++ "                    \x7d\n"
  ++ "                    p \x7b\n"
  ++ "                        margin-bottom: 1.5rem;\n"
  ++ "                        font-size: 1.1rem;\n"
  ++ "                        line-height: 1.5;\n"
  ++ "                    \x7d\n"
  ++ "                    .download-btn \x7b\n"
  ++ "                        background-color: #0eead9;\n"
  ++ "                        color: #121212;\n"
  ++ "                        border: none;\n"
  ++ "                        padding: 0.8rem 1.5rem;\n"
  ++ "                        font-size: 1.2rem;\n"
  ++ "                        font-weight: bold;\n"
  ++ "                        border-radius: 4px;\n"
  ++ "                        cursor: pointer;\n"
  ++ "                        text-decoration: none;\n"
  ++ "                        display: inline-block;\n"
  ++ "                        transition: background-color 0.3s;\n"
  ++ "                    \x7d\n"
  ++ "                    .download-btn:hover \x7b\n"
  ++ "                        background-color: #0ac2b2;\n"
  ++ "                    \x7d\n"
  ++ "                    .file-info \x7b\n"
  ++ "                        margin-top: 1rem;\n"
  ++ "                        font-size: 0.9rem;\n"
  ++ "                        color: #bbbbbb;\n"
  ++ "                    \x7d\n"
  ++ "                </style>\n"
  ++ "            </head>\n"
  ++ "            <body>\n"
  ++ "                <div class=\"container\">\n"
  ++ "                    <h1>دانلود پروژه اندروید اپلیکیشن حسابداری</h1>\n"
  ++ "                    <p>\n"
  ++ "                        فایل پروژه اندروید برای ساخت APK آماده دانلود است. پس از دانلود، فایل را استخراج کرده و طبق راهنمای\n"
  ++ "                        <code>ANDROID_BUILD_INSTRUCTIONS.md</code> برای ساخت فایل APK اقدام کنید.\n"
  ++ "                    </p>\n"
  ++ "                    <a href=\"/download\" class=\"download-btn\">دانلود فایل پروژه اندروید</a>\n"
  ++ "                    <p class=\"file-info\">\n"
  ++ "                        حجم فایل: "

/-- The landing-page f-string after the interpolated size. -/
def htmlPost : String :=
  " کیلوبایت\n"
  ++ "                    </p>\n"
  ++ "                </div>\n"
  ++ "            </body>\n"
  ++ "            </html>\n"
  ++ "            "

/-- The full landing page produced for a file of the given byte size:
the Python f-string with os.path.getsize(ZIP_FILE)/1024 formatted to
one decimal place spliced into it. -/
def rootHtml (sizeBytes : Nat) : String :=
  htmlPre ++ sizeKBStr sizeBytes ++ htmlPost

/-- DownloadHandler.do_GET.  On "/" the 200 status and the header are
sent first; the f-string then calls os.path.getsize, which raises if
the archive no longer exists, so in that case the outcome is `raised`
with an empty body.  On "/download" existence is checked before any
byte is sent.  Every other path gets a 404. -/
def do_GET (fs : FS) (path : String) : GetOutcome :=
  if path = "/" then
    match fs ZIP_FILE with
    | some bytes =>
        GetOutcome.ok ⟨200, [("Content-type", "text/html")],
          strBytes (rootHtml bytes.length)⟩
    | none =>
        GetOutcome.raised ⟨200, [("Content-type", "text/html")], []⟩
  else if path = "/download" then
    match fs ZIP_FILE with
    | some bytes =>
        GetOutcome.ok ⟨200,
          [("Content-type", "application/zip"),
           ("Content-Disposition", "attachment; filename=" ++ pyQuote ZIP_FILE)],
          bytes⟩
    | none =>
        GetOutcome.ok ⟨404, [("Content-type", "text/html")],
          asciiBytes "404 - File not found"⟩
  else
    GetOutcome.ok ⟨404, [("Content-type", "text/html")],
      asciiBytes "404 - Page not found"⟩

/-- The __main__ guard of the server script: the archive's existence is
checked once, at process start, before the server begins serving. -/
def startupOk (fs : FS) : Bool :=
  (fs ZIP_FILE).isSome

/-- A filesystem holding only the archive, with the given contents. -/
def fsWithZip (b : List Nat) : FS :=
  fun p => if p = ZIP_FILE then some b else none

/-- A filesystem holding no files at all. -/
def fsEmpty : FS :=
  fun _ => none

/-! ## upload_apk_to_github.py -/

/-- The environment variables the orchestrator reads and writes. -/
structure Env where
  github_token : Option String
  github_repo : Option String
  release_version : Option String
deriving DecidableEq

/-- What happened when the shell ran one external command: its exit
status and captured standard output and standard error. -/
structure CmdResult where
  exitZero : Bool
  stdout : String
  stderr : String
deriving DecidableEq

/-- execute_command: subprocess.run with check=True raises on a
non-zero exit, which the function catches, printing the error and
returning None; on success it returns the stripped stdout. -/
def execute_command (r : CmdResult) : Option String :=
  if r.exitZero then some (pyStrip r.stdout) else none

/-- Result of one ensure_github_* call: the returned boolean, the
environment afterwards, and whether the operator was prompted. -/
structure EnsureResult where
  ok : Bool
  env : Env
  prompted : Bool
deriving DecidableEq

/-- ensure_github_token: when GITHUB_TOKEN is unset or empty the
operator is prompted; a non-empty stripped answer is written back into
the environment and True is returned, an empty one yields False.  The
follow-up save prompt only prints instructions and changes no state. -/
def ensure_github_token (env : Env) (tokenInput : String) : EnsureResult :=
  if env.github_token.getD "" = "" then
    let token := pyStrip tokenInput
    if token ≠ "" then
      ⟨true, { env with github_token := some token }, true⟩
    else
      ⟨false, env, true⟩
  else
    ⟨true, env, false⟩

/-- ensure_github_repo: the operator is prompted when GITHUB_REPO is
unset, empty, or equal to the placeholder "username/repo"; a stripped
answer that is non-empty and contains "/" is written back and True is
returned, anything else yields False.  The save prompt only prints. -/
def ensure_github_repo (env : Env) (repoInput : String) : EnsureResult :=
  if env.github_repo.getD "" = "" ∨ env.github_repo = some "username/repo" then
    let repo := pyStrip repoInput
    if repo ≠ "" ∧ pyIn "/" repo = true then
      ⟨true, { env with github_repo := some repo }, true⟩
    else
      ⟨false, env, true⟩
  else
    ⟨true, env, false⟩

/-- os.path.join("bin", "accountingapp-debug.apk"). -/
def apk_path : String := "bin/accountingapp-debug.apk"

/-- Result of create_apk: the returned path (None on failure) and
whether the external build command was invoked. -/
structure CreateApkOutcome where
  result : Option String
  buildInvoked : Bool
deriving DecidableEq

/-- create_apk.  `existsBefore` is os.path.exists(apk_path) on entry,
`rebuildAnswer` the operator's answer to the rebuild prompt (read only
when the artifact exists), `buildCmd` the outcome of running
"python create_apk.py", and `existsAfter` os.path.exists(apk_path)
after that command.  The path is returned when the stripped lowered
answer differs from "y"; otherwise the build runs and the path is
returned only if execute_command gave a truthy (non-empty) result and
the artifact exists afterwards. -/
def create_apk (existsBefore : Bool) (rebuildAnswer : String)
    (buildCmd : CmdResult) (existsAfter : Bool) : CreateApkOutcome :=
  if existsBefore ∧ pyLower (pyStrip rebuildAnswer) ≠ "y" then
    ⟨some apk_path, false⟩
  else
    if pyTruthyOptStr (execute_command buildCmd) ∧ existsAfter then
      ⟨some apk_path, true⟩
    else
      ⟨none, true⟩

/-- The fixed success message searched for in the upload command's
output. -/
def uploadMsg : String := "آپلود با موفقیت انجام شد"

/-- Result of upload_to_github: the returned boolean and the
environment afterwards. -/
structure UploadOutcome where
  ok : Bool
  env : Env
deriving DecidableEq

/-- upload_to_github.  Returns False when the artifact is missing, or
when ensuring the token or the repository fails (the repo check runs
only after the token check succeeds, on the environment that check may
have updated).  Otherwise RELEASE_VERSION is set and the upload
command runs; True is returned exactly when execute_command gave a
truthy result containing the fixed success message. -/
def upload_to_github (env : Env) (apkExists : Bool)
    (tokenInput repoInput : String) (uploadCmd : CmdResult)
    (version : String) : UploadOutcome :=
  if apkExists = false then
    ⟨false, env⟩
  else
    let t := ensure_github_token env tokenInput
    if t.ok = false then
      ⟨false, t.env⟩
    else
      let r := ensure_github_repo t.env repoInput
      if r.ok = false then
        ⟨false, r.env⟩
      else
        let env2 := { r.env with release_version := some version }
        match execute_command uploadCmd with
        | none => ⟨false, env2⟩
        | some s =>
            if s ≠ "" ∧ pyIn uploadMsg s = true then
              ⟨true, env2⟩
            else
              ⟨false, env2⟩

/-- Trace of one run of main: the create_apk outcome, the path the
upload step was called with (none when main stopped after a build
failure), and the upload outcome. -/
structure MainTrace where
  createOutcome : CreateApkOutcome
  uploadCalledWith : Option String
  uploadOutcome : Option UploadOutcome
deriving DecidableEq

/-- The script's main function (the name `main` is reserved by Lean for
an executable entry point): create_apk first; when it returns a
(truthy) path, the upload step runs with exactly that path. -/
def mainRun (env : Env) (existsBefore : Bool) (rebuildAnswer : String)
    (buildCmd : CmdResult) (existsAfter : Bool) (apkExistsAtUpload : Bool)
    (tokenInput repoInput : String) (uploadCmd : CmdResult)
    (version : String) : MainTrace :=
  let c := create_apk existsBefore rebuildAnswer buildCmd existsAfter
  if pyTruthyOptStr c.result = false then
    ⟨c, none, none⟩
  else
    match c.result with
    | none => ⟨c, none, none⟩
    | some p =>
        ⟨c, some p,
          some (upload_to_github env apkExistsAtUpload tokenInput repoInput
            uploadCmd version)⟩

/-! ## Helper lemmas -/

theorem strBytesL_append (l₁ l₂ : List Char) :
    strBytesL (l₁ ++ l₂) = strBytesL l₁ ++ strBytesL l₂ := by
  induction l₁ with
  | nil => rfl
  | cons c cs ih => simp [strBytesL, ih, List.append_assoc]

theorem strBytes_rootHtml (n : Nat) :
    strBytes (rootHtml n)
      = strBytesL htmlPre.data ++ strBytes (sizeKBStr n) ++ strBytesL htmlPost.data := by
  show strBytesL (htmlPre ++ sizeKBStr n ++ htmlPost).data = _
  rw [String.data_append, String.data_append, strBytesL_append, strBytesL_append]
  rfl

theorem mem_dropWhile_of_mem {p : Char → Bool} {c : Char} (hc : p c = false) :
    ∀ (l : List Char), c ∈ l → c ∈ l.dropWhile p := by
  intro l
  induction l with
  | nil => intro h; cases h
  | cons a t ih =>
    intro h
    by_cases hpa : p a = true
    · rw [List.dropWhile_cons_of_pos hpa]
      rcases List.mem_cons.mp h with h1 | h2
      · rw [h1] at hc; rw [hpa] at hc; cases hc
      · exact ih h2
    · rw [List.dropWhile_cons_of_neg hpa]
      exact h

theorem mem_of_mem_dropWhile {p : Char → Bool} {c : Char} :
    ∀ (l : List Char), c ∈ l.dropWhile p → c ∈ l := by
  intro l
  induction l with
  | nil => intro h; simp at h
  | cons a t ih =>
    intro h
    by_cases hpa : p a = true
    · rw [List.dropWhile_cons_of_pos hpa] at h
      exact List.mem_cons_of_mem a (ih h)
    · rw [List.dropWhile_cons_of_neg hpa] at h
      exact h

theorem mem_stripChars {c : Char} (hc : pySpace c = false) (l : List Char) :
    c ∈ stripChars l ↔ c ∈ l := by
  unfold stripChars
  constructor
  · intro h
    rw [List.mem_reverse] at h
    have h2 := mem_of_mem_dropWhile _ h
    rw [List.mem_reverse] at h2
    exact mem_of_mem_dropWhile _ h2
  · intro h
    rw [List.mem_reverse]
    apply mem_dropWhile_of_mem hc
    rw [List.mem_reverse]
    exact mem_dropWhile_of_mem hc _ h

theorem hasSubL_singleton (c : Char) (l : List Char) :
    hasSubL [c] l = true ↔ c ∈ l := by
  induction l with
  | nil => simp [hasSubL]
  | cons b bs ih =>
    simp [hasSubL, startsWithL, Bool.or_eq_true, Bool.and_eq_true, beq_iff_eq,
      ih, List.mem_cons]

theorem pyIn_slash_iff (s : String) : pyIn "/" s = true ↔ '/' ∈ s.data := by
  have hd : ("/" : String).data = ['/'] := rfl
  rw [pyIn, hd, hasSubL_singleton]

theorem pyIn_slash_strip (s : String) : pyIn "/" (pyStrip s) = pyIn "/" s := by
  have h := mem_stripChars (c := '/') (by decide) s.data
  rcases hb : pyIn "/" s with _ | _
  · rcases hb2 : pyIn "/" (pyStrip s) with _ | _
    · rfl
    · have h1 : pyIn "/" s = true :=
        (pyIn_slash_iff s).mpr (h.mp ((pyIn_slash_iff (pyStrip s)).mp hb2))
      rw [h1] at hb; cases hb
  · exact (pyIn_slash_iff (pyStrip s)).mpr (h.mpr ((pyIn_slash_iff s).mp hb))

theorem ne_empty_of_pyIn_slash {s : String} (h : pyIn "/" s = true) : s ≠ "" := by
  intro he
  rw [he] at h
  exact absurd h (by decide)

/-! ## Claims about download_android_project.py -/

/-- C1 (confirmed): for a GET request to "/download", when the archive
exists its exact on-disk bytes are returned with status 200 and a
Content-Disposition attachment header naming the file; when the
archive does not exist the response has status 404. -/
theorem c1_download_contract (fs : FS) :
    (∀ b : List Nat, fs ZIP_FILE = some b →
        do_GET fs "/download" = GetOutcome.ok ⟨200,
          [("Content-type", "application/zip"),
           ("Content-Disposition",
             "attachment; filename=accounting-android-project.zip")], b⟩)
    ∧ (fs ZIP_FILE = none →
        do_GET fs "/download" = GetOutcome.ok ⟨404, [("Content-type", "text/html")],
          asciiBytes "404 - File not found"⟩) := by
  constructor
  · intro b h
    unfold do_GET
    rw [if_neg (by decide : ¬("/download" : String) = "/"), if_pos rfl, h]
    rfl
  · intro h
    unfold do_GET
    rw [if_neg (by decide : ¬("/download" : String) = "/"), if_pos rfl, h]

/-- C1 witness: both branches at concrete filesystems. -/
theorem c1_download_contract_witness :
    do_GET (fsWithZip [1, 2, 3]) "/download" = GetOutcome.ok ⟨200,
      [("Content-type", "application/zip"),
       ("Content-Disposition",
         "attachment; filename=accounting-android-project.zip")], [1, 2, 3]⟩
    ∧ do_GET fsEmpty "/download" = GetOutcome.ok ⟨404, [("Content-type", "text/html")],
        asciiBytes "404 - File not found"⟩ :=
  ⟨(c1_download_contract (fsWithZip [1, 2, 3])).1 [1, 2, 3] rfl,
   (c1_download_contract fsEmpty).2 rfl⟩

set_option maxRecDepth 100000 in
/-- C2 counterexample: with the archive present and 1536 bytes long,
the root path responds 200 but its body nowhere contains the decimal
byte size "1536" — the page embeds the kilobyte figure "1.5" instead,
so the body does not contain the byte size as the claim states. -/
theorem c2_root_size_counterexample :
    do_GET (fsWithZip (List.replicate 1536 0)) "/" = GetOutcome.ok ⟨200,
      [("Content-type", "text/html")], strBytes (rootHtml 1536)⟩
    ∧ hasSubL (asciiBytes "1536") (strBytes (rootHtml 1536)) = false := by
  constructor
  · unfold do_GET
    rw [if_pos rfl,
      show fsWithZip (List.replicate 1536 0) ZIP_FILE
        = some (List.replicate 1536 0) from rfl]
    rfl
  · decide

/-- C2 amended (proved): for a GET request to "/" while the archive
exists, the handler responds 200 with an HTML body that contains the
file's size in kilobytes — size/1024 formatted to one decimal place —
computed from the on-disk size queried fresh at request time. -/
theorem c2_root_size_amended (fs : FS) (b : List Nat) (h : fs ZIP_FILE = some b) :
    ∃ u v, do_GET fs "/" = GetOutcome.ok ⟨200, [("Content-type", "text/html")],
      u ++ strBytes (sizeKBStr b.length) ++ v⟩ := by
  refine ⟨strBytesL htmlPre.data, strBytesL htmlPost.data, ?_⟩
  unfold do_GET
  rw [if_pos rfl, h]
  show GetOutcome.ok ⟨200, [("Content-type", "text/html")],
      strBytes (rootHtml b.length)⟩ = _
  rw [strBytes_rootHtml]

/-- C2 amended witness: a three-byte archive. -/
theorem c2_root_size_amended_witness :
    ∃ u v, do_GET (fsWithZip [1, 2, 3]) "/" = GetOutcome.ok ⟨200,
      [("Content-type", "text/html")], u ++ strBytes (sizeKBStr 3) ++ v⟩ :=
  c2_root_size_amended (fsWithZip [1, 2, 3]) [1, 2, 3] rfl

/-- C8 (confirmed): every GET request whose path is neither "/" nor
"/download" is answered with status 404. -/
theorem c8_unknown_path_404 (fs : FS) (path : String)
    (h1 : path ≠ "/") (h2 : path ≠ "/download") :
    do_GET fs path = GetOutcome.ok ⟨404, [("Content-type", "text/html")],
      asciiBytes "404 - Page not found"⟩ := by
  unfold do_GET
  rw [if_neg h1, if_neg h2]

/-- C8 witness: an unrecognised path. -/
theorem c8_unknown_path_404_witness :
    do_GET fsEmpty "/index.html" = GetOutcome.ok ⟨404, [("Content-type", "text/html")],
      asciiBytes "404 - Page not found"⟩ :=
  c8_unknown_path_404 fsEmpty "/index.html" (by decide) (by decide)

/-- C9 (confirmed): the archive's existence is only guarded at process
start; a GET request to "/" made against a filesystem where the file
has since disappeared raises from the size query after the 200 status
and the header were already sent, with no body byte written. -/
theorem c9_root_unguarded_raise (fs0 fs : FS)
    (_hstart : startupOk fs0 = true) (h : fs ZIP_FILE = none) :
    do_GET fs "/" = GetOutcome.raised ⟨200, [("Content-type", "text/html")], []⟩ := by
  unfold do_GET
  rw [if_pos rfl, h]

/-- C9 witness: the file existed at startup and is gone at request
time. -/
theorem c9_root_unguarded_raise_witness :
    do_GET fsEmpty "/" = GetOutcome.raised ⟨200, [("Content-type", "text/html")], []⟩ :=
  c9_root_unguarded_raise (fsWithZip [0]) fsEmpty rfl rfl

/-! ## Claims about upload_apk_to_github.py -/

/-- C3 counterexample: artifact existence after the build is not the
sole success signal.  With the build command exiting zero but printing
nothing, and likewise with it exiting non-zero, create_apk returns
None even though the artifact does exist after the invocation — the
exit code and the emptiness of stdout are both validated through the
truthiness of execute_command's result. -/
theorem c3_build_signal_counterexample :
    (create_apk false "" ⟨true, "", ""⟩ true).result = none
    ∧ (create_apk false "" ⟨false, "done", ""⟩ true).result = none := by
  decide

/-- C3 amended (proved): when the build branch runs (artifact absent,
or the operator answered yes), create_apk invokes the build command
and returns the artifact path exactly when the command exited zero
with a non-empty stripped stdout AND the artifact exists afterwards. -/
theorem c3_build_signal_amended (existsBefore : Bool) (answer : String)
    (cmd : CmdResult) (after : Bool)
    (h : existsBefore = false ∨ pyLower (pyStrip answer) = "y") :
    (create_apk existsBefore answer cmd after).buildInvoked = true
    ∧ ((create_apk existsBefore answer cmd after).result = some apk_path
        ↔ (cmd.exitZero = true ∧ pyStrip cmd.stdout ≠ "" ∧ after = true)) := by
  have hcond : ¬(existsBefore = true ∧ pyLower (pyStrip answer) ≠ "y") := by
    rcases h with h | h
    · rintro ⟨h1, _⟩; rw [h] at h1; cases h1
    · rintro ⟨_, h2⟩; exact h2 h
  rcases hz : cmd.exitZero with _ | _ <;>
    rcases ha : after with _ | _ <;>
      by_cases hs : pyStrip cmd.stdout = "" <;>
        simp [create_apk, execute_command, pyTruthyOptStr, hz, ha, hs, hcond,
          apk_path]

/-- C3 amended witness: a successful build with output and the
artifact present afterwards. -/
theorem c3_build_signal_amended_witness :
    (create_apk false "x" ⟨true, "built ok", ""⟩ true).buildInvoked = true
    ∧ ((create_apk false "x" ⟨true, "built ok", ""⟩ true).result = some apk_path
        ↔ (true = true ∧ pyStrip "built ok" ≠ "" ∧ true = true)) :=
  c3_build_signal_amended false "x" ⟨true, "built ok", ""⟩ true (Or.inl rfl)

/-- C4 (confirmed): once upload_to_github reaches the upload command
(artifact present, token and repository ensured), it returns True
exactly when the command's captured output exists, is non-empty, and
contains the fixed success substring; a failed command, empty output,
or absent substring all yield False. -/
theorem c4_upload_success_iff (env : Env) (tIn rIn ver : String) (cmd : CmdResult)
    (htok : (ensure_github_token env tIn).ok = true)
    (hrepo : (ensure_github_repo (ensure_github_token env tIn).env rIn).ok = true) :
    (upload_to_github env true tIn rIn cmd ver).ok = true
      ↔ ∃ s, execute_command cmd = some s ∧ s ≠ "" ∧ pyIn uploadMsg s = true := by
  simp only [upload_to_github, htok, hrepo]
  rw [if_neg (by decide : ¬(true = false)), if_neg (by decide : ¬(true = false)),
    if_neg (by decide : ¬(true = false))]
  rcases hc : execute_command cmd with _ | s
  · simp
  · simp only [Option.some.injEq]
    split
    · rename_i hcond
      simp only [true_iff]
      exact ⟨s, rfl, hcond⟩
    · rename_i hcond
      constructor
      · intro hfalse; cases hfalse
      · rintro ⟨s2, hs2, h1, h2⟩
        rw [← hs2] at h1 h2
        exact absurd ⟨h1, h2⟩ hcond

/-- C4 witness: the upload command succeeds and prints the success
message. -/
theorem c4_upload_success_iff_witness :
    (upload_to_github ⟨some "t", some "u/r", none⟩ true "x" "y"
        ⟨true, uploadMsg, ""⟩ "v1").ok = true
      ↔ ∃ s, execute_command ⟨true, uploadMsg, ""⟩ = some s
          ∧ s ≠ "" ∧ pyIn uploadMsg s = true :=
  c4_upload_success_iff ⟨some "t", some "u/r", none⟩ "x" "y" "v1"
    ⟨true, uploadMsg, ""⟩ rfl rfl

/-- C5 counterexample: the raw answer "Y" differs from the literal
answer "y", yet create_apk lowercases it and rebuilds — so it is not
the case that every answer other than "y" skips the build. -/
theorem c5_decline_rebuild_counterexample :
    (create_apk true "Y" ⟨true, "out", ""⟩ true).buildInvoked = true := by
  decide

/-- C5 amended (proved): when the artifact exists and the stripped,
lowercased answer differs from "y", create_apk returns the existing
path without invoking the build command, and main proceeds directly
to the upload step with that path. -/
theorem c5_decline_rebuild_amended (answer : String) (cmd : CmdResult)
    (after : Bool) (env : Env) (apkEx : Bool) (tIn rIn : String)
    (uCmd : CmdResult) (ver : String)
    (h : pyLower (pyStrip answer) ≠ "y") :
    create_apk true answer cmd after = ⟨some apk_path, false⟩
    ∧ (mainRun env true answer cmd after apkEx tIn rIn uCmd ver).uploadCalledWith
        = some apk_path
    ∧ (mainRun env true answer cmd after apkEx tIn rIn uCmd ver).uploadOutcome
        = some (upload_to_github env apkEx tIn rIn uCmd ver) := by
  have hc : create_apk true answer cmd after = ⟨some apk_path, false⟩ := by
    unfold create_apk
    rw [if_pos ⟨rfl, h⟩]
  have htruthy : pyTruthyOptStr (some apk_path) = true := by decide
  refine ⟨hc, ?_, ?_⟩ <;> simp [mainRun, hc, htruthy]

/-- C5 amended witness: the operator answers "n". -/
theorem c5_decline_rebuild_amended_witness :
    create_apk true "n" ⟨true, "o", ""⟩ true = ⟨some apk_path, false⟩
    ∧ (mainRun ⟨none, none, none⟩ true "n" ⟨true, "o", ""⟩ true true "t" "u/r"
        ⟨true, "z", ""⟩ "v").uploadCalledWith = some apk_path
    ∧ (mainRun ⟨none, none, none⟩ true "n" ⟨true, "o", ""⟩ true true "t" "u/r"
        ⟨true, "z", ""⟩ "v").uploadOutcome
        = some (upload_to_github ⟨none, none, none⟩ true "t" "u/r"
            ⟨true, "z", ""⟩ "v") :=
  c5_decline_rebuild_amended "n" ⟨true, "o", ""⟩ true ⟨none, none, none⟩ true
    "t" "u/r" ⟨true, "z", ""⟩ "v" (by decide)

/-- C6 counterexample: the value written back is the stripped input,
not the exact supplied value — supplying " tok " stores "tok" — and a
non-empty repository answer without "/" is rejected rather than
written. -/
theorem c6_writeback_counterexample :
    ((ensure_github_token ⟨none, none, none⟩ " tok ").ok = true
      ∧ (ensure_github_token ⟨none, none, none⟩ " tok ").env.github_token
          = some "tok"
      ∧ (ensure_github_token ⟨none, none, none⟩ " tok ").env.github_token
          ≠ some " tok ")
    ∧ (ensure_github_repo ⟨none, none, none⟩ "myrepo").ok = false := by
  decide

/-- C6 amended (proved): when GITHUB_TOKEN and GITHUB_REPO are absent
and the operator supplies answers whose stripped forms are non-empty
(and, for the repository, contain "/"), each ensure function writes
the stripped value into the process environment and returns True, and
the repository step still observes the token written by the earlier
step. -/
theorem c6_writeback_amended (env : Env) (tIn rIn : String)
    (htok : env.github_token = none) (hrepo : env.github_repo = none)
    (h1 : pyStrip tIn ≠ "") (h2 : pyIn "/" (pyStrip rIn) = true) :
    (ensure_github_token env tIn).ok = true
    ∧ (ensure_github_token env tIn).env.github_token = some (pyStrip tIn)
    ∧ (ensure_github_repo (ensure_github_token env tIn).env rIn).ok = true
    ∧ (ensure_github_repo (ensure_github_token env tIn).env rIn).env.github_repo
        = some (pyStrip rIn)
    ∧ (ensure_github_repo (ensure_github_token env tIn).env rIn).env.github_token
        = some (pyStrip tIn) := by
  have hstrip_ne : pyStrip rIn ≠ "" := ne_empty_of_pyIn_slash h2
  have ht : ensure_github_token env tIn
      = ⟨true, ⟨some (pyStrip tIn), env.github_repo, env.release_version⟩, true⟩ := by
    simp [ensure_github_token, htok, h1]
  have hr : ensure_github_repo
        ⟨some (pyStrip tIn), env.github_repo, env.release_version⟩ rIn
      = ⟨true, ⟨some (pyStrip tIn), some (pyStrip rIn), env.release_version⟩,
          true⟩ := by
    simp [ensure_github_repo, hrepo, hstrip_ne, h2]
  simp [ht, hr]

/-- C6 amended witness: clean answers without surrounding whitespace,
where the stripped value is the supplied value. -/
theorem c6_writeback_amended_witness :
    (ensure_github_token ⟨none, none, none⟩ "tok").ok = true
    ∧ (ensure_github_token ⟨none, none, none⟩ "tok").env.github_token
        = some (pyStrip "tok")
    ∧ (ensure_github_repo (ensure_github_token ⟨none, none, none⟩ "tok").env
        "user/repo").ok = true
    ∧ (ensure_github_repo (ensure_github_token ⟨none, none, none⟩ "tok").env
        "user/repo").env.github_repo = some (pyStrip "user/repo")
    ∧ (ensure_github_repo (ensure_github_token ⟨none, none, none⟩ "tok").env
        "user/repo").env.github_token = some (pyStrip "tok") :=
  c6_writeback_amended ⟨none, none, none⟩ "tok" "user/repo" rfl rfl
    (by decide) (by decide)

/-- C7 (confirmed): a prompted repository answer is accepted exactly
when it is non-empty and contains the separator "/" (stripping cannot
remove a slash, so the check on the stripped answer coincides with
this), and a prompted token answer is accepted whenever its stripped
form is non-empty — no further format validation exists for either. -/
theorem c7_validation_scope :
    (∀ (env : Env) (rIn : String), env.github_repo = none →
        ((ensure_github_repo env rIn).ok = true
          ↔ (rIn ≠ "" ∧ pyIn "/" rIn = true)))
    ∧ (∀ (env : Env) (tIn : String), env.github_token = none →
        pyStrip tIn ≠ "" → (ensure_github_token env tIn).ok = true) := by
  constructor
  · intro env rIn hrepo
    unfold ensure_github_repo
    rw [if_pos (Or.inl (show env.github_repo.getD "" = "" by rw [hrepo]; rfl))]
    constructor
    · intro h
      by_cases hc : pyStrip rIn ≠ "" ∧ pyIn "/" (pyStrip rIn) = true
      · have hin : pyIn "/" rIn = true := by rw [← pyIn_slash_strip]; exact hc.2
        exact ⟨ne_empty_of_pyIn_slash hin, hin⟩
      · rw [if_neg hc] at h
        cases h
    · rintro ⟨_, hin⟩
      have h2' : pyIn "/" (pyStrip rIn) = true := by
        rw [pyIn_slash_strip]; exact hin
      rw [if_pos ⟨ne_empty_of_pyIn_slash h2', h2'⟩]
  · intro env tIn htok h1
    unfold ensure_github_token
    rw [if_pos (show env.github_token.getD "" = "" by rw [htok]; rfl), if_pos h1]

/-- C7 witness: a well-formed repository answer and a non-empty
token answer. -/
theorem c7_validation_scope_witness :
    ((ensure_github_repo ⟨none, none, none⟩ "user/repo").ok = true
      ↔ ("user/repo" ≠ "" ∧ pyIn "/" "user/repo" = true))
    ∧ (ensure_github_token ⟨none, none, none⟩ "sometoken").ok = true :=
  ⟨c7_validation_scope.1 ⟨none, none, none⟩ "user/repo" rfl,
   c7_validation_scope.2 ⟨none, none, none⟩ "sometoken" rfl (by decide)⟩

/-- C10 (confirmed): a GITHUB_REPO equal to the placeholder
"username/repo" triggers the prompt exactly as an absent variable
does, with the same acceptance outcome, while any other value
containing "/" is accepted untouched without prompting. -/
theorem c10_placeholder_like_absent (tok ver : Option String) (rIn : String) :
    ((ensure_github_repo ⟨tok, some "username/repo", ver⟩ rIn).prompted = true
      ∧ (ensure_github_repo ⟨tok, some "username/repo", ver⟩ rIn).ok
          = (ensure_github_repo ⟨tok, none, ver⟩ rIn).ok)
    ∧ ∀ v : String, v ≠ "username/repo" → pyIn "/" v = true →
        ensure_github_repo ⟨tok, some v, ver⟩ rIn = ⟨true, ⟨tok, some v, ver⟩, false⟩ := by
  constructor
  · unfold ensure_github_repo
    rw [if_pos (show ((⟨tok, some "username/repo", ver⟩ : Env).github_repo.getD ""
        = "" ∨ (⟨tok, some "username/repo", ver⟩ : Env).github_repo
        = some "username/repo") from Or.inr rfl)]
    rw [if_pos (show ((⟨tok, none, ver⟩ : Env).github_repo.getD "" = ""
        ∨ (⟨tok, none, ver⟩ : Env).github_repo = some "username/repo")
        from Or.inl rfl)]
    by_cases hc : pyStrip rIn ≠ "" ∧ pyIn "/" (pyStrip rIn) = true
    · simp only [if_pos hc]
      exact ⟨trivial, trivial⟩
    · simp only [if_neg hc]
      exact ⟨trivial, trivial⟩
  · intro v hv hslash
    unfold ensure_github_repo
    rw [if_neg ?_]
    · rintro (h1 | h2)
      · exact ne_empty_of_pyIn_slash hslash h1
      · exact hv (Option.some_inj.mp h2)

/-- C10 witness: the placeholder is prompted away; a real value is
kept without prompting. -/
theorem c10_placeholder_like_absent_witness :
    ((ensure_github_repo ⟨none, some "username/repo", none⟩ "a/b").prompted = true
      ∧ (ensure_github_repo ⟨none, some "username/repo", none⟩ "a/b").ok
          = (ensure_github_repo ⟨none, none, none⟩ "a/b").ok)
    ∧ ensure_github_repo ⟨none, some "me/repo", none⟩ "a/b"
        = ⟨true, ⟨none, some "me/repo", none⟩, false⟩ :=
  ⟨(c10_placeholder_like_absent none none "a/b").1,
   (c10_placeholder_like_absent none none "a/b").2 "me/repo" (by decide) (by decide)⟩
